import Mathlib

/-!
Shallow embedding of the moombox job state machine and feed-ingestion
pipeline (src/moombox/tasks.py, src/moombox/feed_monitor.py,
src/moombox/extractor.py, src/moombox/config.py), together with proofs
about the claims on the spec.

Conventions of the embedding:
* `Time` is an absolute timestamp in microseconds (Python `datetime` has
  microsecond resolution, so integer microseconds are an exact model);
  durations (`datetime.timedelta`) are likewise integer microseconds.
* Python `None` becomes `Option.none`; fallible values are `Option`.
* Python dictionaries whose iteration order matters are association
  lists; Python sets used only for membership are plain lists.
* External side effects (database persistence, broadcasts, background
  tasks, notifications) are not part of the state transition that the
  claims are about and are elided; field updates are kept in full.
-/

/-- A timestamp or duration in integer microseconds (exact model of
Python `datetime` / `timedelta` resolution). -/
abbrev Time := Int

/-- Python `int(q)` for a rational `q`: truncation toward zero. -/
def ratTrunc (q : ℚ) : Int :=
  if 0 ≤ q then ⌊q⌋ else -⌊-q⌋

/-- `moombox.tasks.DownloadStatus` (enum). -/
inductive DownloadStatus
  | unknown
  | unavailable
  | waiting
  | downloading
  | muxing
  | finished
  | error
  | cancelled
  deriving Repr, DecidableEq

namespace DownloadStatus

/-- `DownloadStatus.can_delete_tempfiles` (tasks.py lines 148-155):
temporary files may be deleted only in the CANCELLED, FINISHED, ERROR
states. -/
def can_delete_tempfiles (s : DownloadStatus) : Bool :=
  s = cancelled || s = finished || s = error

/-- `DownloadStatus.sort_key` (tasks.py lines 157-168): UNKNOWN has
priority 3, DOWNLOADING 2, WAITING 1, everything else 0. -/
def sort_key (s : DownloadStatus) : Nat :=
  match s with
  | unknown => 3
  | downloading => 2
  | waiting => 1
  | _ => 0

end DownloadStatus

/-- `moombox.tasks.DownloadLogMessage` (NamedTuple). -/
structure DownloadLogMessage where
  event_datetime : Time
  message : String
  deriving Repr, DecidableEq

/-- `moonarchive.models.ffmpeg.FFMPEGProgress` as it is used by the
code under verification: the mux output elapsed time in microseconds
and the mux output total size in bytes, either of which may be
unreported.  (The library type is an external collaborator; only the
two fields read by moombox are modelled.) -/
structure FFMPEGProgress where
  out_time_us : Option Int := none
  total_size : Option Int := none
  deriving Repr, DecidableEq

/-- `moombox.tasks.DownloadManifestProgress`.  The two datetimes are
kept as rational seconds since epoch so that the float arithmetic of
`estimated_download_time_remaining` is modelled exactly. -/
structure DownloadManifestProgress where
  video_seq : Int := 0
  audio_seq : Int := 0
  max_seq : Int := 0
  total_downloaded : Int := 0
  download_start_dt : Option ℚ := none
  download_last_update_dt : Option ℚ := none
  output : FFMPEGProgress := {}
  deriving Repr, DecidableEq

namespace DownloadManifestProgress

/-- The clamped current-sequence divisor
`max(min(self.video_seq, self.audio_seq), 1)` of
`estimated_download_time_remaining` (tasks.py line 195). -/
def min_current_seq (p : DownloadManifestProgress) : Int :=
  max (min p.video_seq p.audio_seq) 1

/-- The clamped elapsed seconds
`max(1, (last - start).total_seconds())` of
`estimated_download_time_remaining` (tasks.py lines 197-199), given the
two timestamps. -/
def elapsed_seconds (s l : ℚ) : ℚ :=
  max 1 (l - s)

/-- `DownloadManifestProgress.estimated_download_time_remaining`
(tasks.py lines 187-201).  Returns the estimate as a whole number of
seconds (`datetime.timedelta(seconds=int(...))`), or `none` when either
timestamp is unset. -/
def estimated_download_time_remaining (p : DownloadManifestProgress) : Option Int :=
  match p.download_start_dt, p.download_last_update_dt with
  | some s, some l =>
      let minCur : ℚ := (p.min_current_seq : ℚ)
      let remaining : ℚ := (p.max_seq : ℚ) - minCur
      let elapsed : ℚ := elapsed_seconds s l
      some (ratTrunc (remaining / (minCur / elapsed)))
  | _, _ => none

end DownloadManifestProgress

/-- `moombox.tasks.HealthCheckResult` (enum). -/
inductive HealthCheckResult
  | ok
  | healthcheck_failure
  | video_unavailable
  | stream_length_differs
  | stream_length_indeterminate
  deriving Repr, DecidableEq

/-- `moombox.tasks.HealthCheckStatus`. -/
structure HealthCheckStatus where
  result : Option HealthCheckResult := none
  last_update : Option Time := none
  deriving Repr, DecidableEq

/-- `moombox.extractor.YouTubeVideoBroadcastDetails` (extractor.py lines
122-133).  Timestamps are microseconds; `length_seconds`-style parsing
aside, only the fields read by the health check are modelled. -/
structure YouTubeVideoBroadcastDetails where
  start_timestamp : Option Time := none
  end_timestamp : Option Time := none
  is_live_now : Bool := false
  deriving Repr, DecidableEq

namespace YouTubeVideoBroadcastDetails

/-- `YouTubeVideoBroadcastDetails.estimated_duration` (extractor.py
lines 127-133): `int((end - start).total_seconds())` when both
timestamps are present, `None` otherwise.  (A Python `datetime` is
always truthy, so the `if not` guards test for `None` only.) -/
def estimated_duration (d : YouTubeVideoBroadcastDetails) : Option Int :=
  match d.start_timestamp, d.end_timestamp with
  | some s, some e => some (ratTrunc (((e - s : Int) : ℚ) / 1000000))
  | _, _ => none

end YouTubeVideoBroadcastDetails

/-- `moombox.extractor.YouTubeVideoMicroformatRenderer`. -/
structure YouTubeVideoMicroformatRenderer where
  live_broadcast_details : Option YouTubeVideoBroadcastDetails := none
  deriving Repr, DecidableEq

/-- `moombox.extractor.YouTubeVideoMicroformat`.  Its Python truthiness
is `bool(player_microformat_renderer)` and attribute access proxies to
the renderer. -/
structure YouTubeVideoMicroformat where
  player_microformat_renderer : Option YouTubeVideoMicroformatRenderer := none
  deriving Repr, DecidableEq

/-- `moombox.extractor.YouTubePlayabilityStatus` (only the field the
health check reads). -/
structure YouTubePlayabilityStatus where
  status : String
  deriving Repr, DecidableEq

/-- `moombox.extractor.YouTubeVideoDetails` (only the fields the health
check reads).  `video_duration` in the source parses the upstream
`length_seconds` string into an int; the already-parsed integer is kept
here. -/
structure YouTubeVideoDetails where
  video_duration : Int
  is_live_content : Bool := true
  deriving Repr, DecidableEq

/-- `moombox.extractor.YouTubePlayerResponse` (only the fields the
health check reads). -/
structure YouTubePlayerResponse where
  video_details : Option YouTubeVideoDetails := none
  playability_status : Option YouTubePlayabilityStatus := none
  microformat : Option YouTubeVideoMicroformat := none
  deriving Repr, DecidableEq

/-- Python truthiness of an optional string (`if not self.video_id`):
`None` and the empty string are falsy. -/
def optStrTruthy (s : Option String) : Bool :=
  match s with
  | none => false
  | some t => t ≠ ""

/-- The event stream consumed from the download engine
(`moonarchive.models.messages`), restricted to the message classes that
`DownloadJob.handle_message` names; `unrecognized` stands for every
other message class (the wildcard arm of the `match`).  Payload fields
are those the handler reads. -/
inductive EngineMessage
  | streamInfo (video_title : String) (start_datetime : Option Time)
  | fragment (manifest_id : String) (media_type : String)
      (current_fragment : Int) (max_fragments : Int) (fragment_size : Int)
  | downloadJobFinished (output_paths : List String)
  | downloadJobFailedOutputMove
  | streamMux
  | streamUnavailable
  | formatSelection (manifest_id : String) (major_type : String)
      (quality_label : String) (bitrate : Option Int) (itag : Int)
      (target_duration_sec : Int) (codec_primary : Option String)
  | stringMsg (text : String)
  | streamMuxProgress (manifest_id : String) (progress : FFMPEGProgress)
  | unrecognized
  deriving Repr, DecidableEq

/-- `moombox.tasks.DownloadJob` state (the fields; the live downloader
engine handle is an external collaborator and not part of the state the
claims are about). -/
structure DownloadJob where
  id : String
  author : Option String := none
  channel_id : Option String := none
  video_id : Option String := none
  scheduled_start_datetime : Option Time := none
  thumbnail_url : Option String := none
  current_manifest : Option String := none
  title : Option String := none
  status : DownloadStatus := DownloadStatus.unknown
  download_finish_datetime : Option Time := none
  message_log : List DownloadLogMessage := []
  manifest_progress : List (String × DownloadManifestProgress) := []
  healthcheck : HealthCheckStatus := {}
  output_paths : List String := []
  deriving Repr, DecidableEq

namespace DownloadJob

/-- Lookup in the `manifest_progress` defaultdict: a missing key reads
as a default-constructed `DownloadManifestProgress`. -/
def getManifest (l : List (String × DownloadManifestProgress)) (k : String) :
    DownloadManifestProgress :=
  match l.find? (fun p => p.1 = k) with
  | some p => p.2
  | none => {}

/-- Store into the `manifest_progress` defaultdict: overwrite the entry
if the key is present, append it otherwise (Python dict insertion
order). -/
def setManifest (l : List (String × DownloadManifestProgress)) (k : String)
    (v : DownloadManifestProgress) : List (String × DownloadManifestProgress) :=
  if l.any (fun p => p.1 = k) then
    l.map (fun p => if p.1 = k then (k, v) else p)
  else
    l ++ [(k, v)]

/-- `DownloadJob.append_message` (tasks.py lines 393-396). -/
def append_message (now : Time) (j : DownloadJob) (message : String) : DownloadJob :=
  { j with message_log := j.message_log ++ [⟨now, message⟩] }

/-- Python `str.capitalize()` restricted to ASCII (the major-type
strings are "video"/"audio"/"unknown"). -/
def pyCapitalize (s : String) : String :=
  match s.toList with
  | [] => ""
  | c :: rest => String.mk (c.toUpper :: rest.map Char.toLower)

/-- `DownloadJob.handle_message` (tasks.py lines 283-362) as a state
transition.  `now` stands in for `datetime.datetime.now()`; the
broadcast / persistence / background-task side effects at the end of
the method mutate no job field and are elided. -/
def handle_message (now : Time) (j : DownloadJob) (msg : EngineMessage) : DownloadJob :=
  match msg with
  | .streamInfo video_title start_datetime =>
      let j := { j with title := some video_title, status := DownloadStatus.waiting }
      if j.scheduled_start_datetime ≠ start_datetime then
        { j with scheduled_start_datetime := start_datetime }
      else j
  | .fragment manifest_id media_type current_fragment max_fragments fragment_size =>
      let j := { j with status := DownloadStatus.downloading }
      let mp := getManifest j.manifest_progress manifest_id
      let mp := { mp with max_seq := max mp.max_seq max_fragments }
      let mp :=
        if mp.download_start_dt = none then
          { mp with download_start_dt := some ((now : ℚ) / 1000000) }
        else mp
      let mp := { mp with download_last_update_dt := some ((now : ℚ) / 1000000) }
      let mp :=
        if media_type = "audio" then { mp with audio_seq := current_fragment }
        else if media_type = "video" then { mp with video_seq := current_fragment }
        else mp
      let mp := { mp with total_downloaded := mp.total_downloaded + fragment_size }
      { j with
          manifest_progress := setManifest j.manifest_progress manifest_id mp,
          current_manifest := some manifest_id,
          video_id := some ((manifest_id.splitOn ".").headD "") }
  | .downloadJobFinished output_paths =>
      let j := { j with status := DownloadStatus.finished }
      let j := append_message now j "Finished downloading"
      { j with
          output_paths := output_paths.eraseDups,
          download_finish_datetime := some now }
  | .downloadJobFailedOutputMove =>
      { j with status := DownloadStatus.error }
  | .streamMux =>
      let j := { j with status := DownloadStatus.muxing }
      append_message now j "Started remux process"
  | .streamUnavailable =>
      { j with status := DownloadStatus.unavailable }
  | .formatSelection manifest_id major_type quality_label bitrate itag
      target_duration_sec codec_primary =>
      let major_type_str := pyCapitalize major_type
      let display0 :=
        match codec_primary with
        | some c => if c = "" then "unknown codec" else c
        | none => "unknown codec"
      -- the defaultdict access on line 325 creates the manifest entry in
      -- every branch; the stored video_format/audio_format payloads are
      -- opaque engine data outside this model
      let mp := getManifest j.manifest_progress manifest_id
      let j := { j with manifest_progress := setManifest j.manifest_progress manifest_id mp }
      if major_type = "video" then
        let display_media_type :=
          if display0.startsWith "avc1" then "h264" else display0
        append_message now j
          (s!"{major_type_str} format: {quality_label} " ++
           s!"{display_media_type} (itag {itag}, manifest " ++
           s!"{manifest_id}, duration {target_duration_sec})")
      else
        match bitrate with
        | some b =>
          if b ≠ 0 then
            let bk := b.fdiv 1000
            append_message now j
              (s!"{major_type_str} format: {bk}k " ++
               s!"{display0} (itag {itag}, manifest " ++
               s!"{manifest_id}, duration {target_duration_sec})")
          else
            append_message now j
              (s!"{major_type_str} format selected (manifest " ++
               s!"{manifest_id}, duration {target_duration_sec})")
        | none =>
          append_message now j
            (s!"{major_type_str} format selected (manifest " ++
             s!"{manifest_id}, duration {target_duration_sec})")
  | .stringMsg text =>
      append_message now j text
  | .streamMuxProgress manifest_id progress =>
      let mp := getManifest j.manifest_progress manifest_id
      { j with
          manifest_progress :=
            setManifest j.manifest_progress manifest_id { mp with output := progress } }
  | .unrecognized => j

end DownloadJob

/-- The `estimated_duration` access chain of `_fetch_health_status`
(tasks.py lines 447-451): `response.microformat and
response.microformat.live_broadcast_details` followed by
`.estimated_duration`, `none` when any link is absent. -/
def responseEstimatedDuration (r : YouTubePlayerResponse) : Option Int :=
  match r.microformat with
  | none => none
  | some mf =>
    match mf.player_microformat_renderer with
    | none => none
    | some ren =>
      match ren.live_broadcast_details with
      | none => none
      | some d => d.estimated_duration

namespace DownloadJob

/-- `DownloadJob.SortKey` (tasks.py lines 256-270). -/
structure SortKey where
  status : DownloadStatus := DownloadStatus.unknown
  event_datetime : Option Time := none
  deriving Repr, DecidableEq

/-- `DownloadJob.SortKey.__lt__` (tasks.py lines 261-270).  A Python
`datetime` is truthy whenever present, so `not self.event_datetime`
tests for `None`. -/
def SortKey.lt (a b : SortKey) : Bool :=
  if a.status.sort_key ≠ b.status.sort_key then
    decide (a.status.sort_key < b.status.sort_key)
  else
    match a.event_datetime, b.event_datetime with
    | none, _ => false
    | _, none => false
    | some x, some y =>
        if a.status = DownloadStatus.waiting then decide (x > y) else decide (x < y)

/-- `DownloadJob.sort_key` (tasks.py lines 272-281): the reference time
is the last log-message time, overridden by the finish time for
FINISHED and the scheduled start time for WAITING. -/
def sort_key (j : DownloadJob) : SortKey :=
  let event_datetime :=
    match j.message_log.getLast? with
    | some m => some m.event_datetime
    | none => none
  let event_datetime :=
    match j.status with
    | DownloadStatus.finished => j.download_finish_datetime
    | DownloadStatus.waiting => j.scheduled_start_datetime
    | _ => event_datetime
  ⟨j.status, event_datetime⟩

/-- `DownloadJob.downloaded_duration` (tasks.py lines 527-544): `none`
unless the job has exactly one manifest, else the summed mux output
time converted to whole seconds
(`int(sum(out_time_us or 0)) // 1_000_000`, Python floor division). -/
def downloaded_duration (j : DownloadJob) : Option Int :=
  if j.manifest_progress.length ≠ 1 then none
  else
    some ((j.manifest_progress.map
      (fun (p : String × DownloadManifestProgress) =>
        match p.2.output.out_time_us with
        | some v => v
        | none => 0)).sum.fdiv 1000000)

/-- `DownloadJob.can_delete_tempfiles` (tasks.py lines 577-586). -/
def can_delete_tempfiles (j : DownloadJob) : Bool :=
  if j.video_id = none then false
  else if j.status = DownloadStatus.finished &&
      j.manifest_progress.any (fun p => p.2.output.total_size = none) then
    false
  else j.status.can_delete_tempfiles

/-- `DownloadJob._fetch_health_status` (tasks.py lines 427-456) as a
function of the job state and the (already awaited, rate-limited)
upstream player response.  Python truthiness: an empty-string video id
is falsy; the msgspec structs are truthy whenever present; an
`estimated_duration` of `None` or `0` is falsy. -/
def fetch_health_status (j : DownloadJob) (response : Option YouTubePlayerResponse) :
    HealthCheckResult :=
  if !optStrTruthy j.video_id then
    HealthCheckResult.healthcheck_failure
  else
    match j.downloaded_duration with
    | none => HealthCheckResult.stream_length_indeterminate
    | some dd =>
      match response with
      | none => HealthCheckResult.healthcheck_failure
      | some r =>
        match r.playability_status with
        | none => HealthCheckResult.healthcheck_failure
        | some ps =>
          if ps.status = "LOGIN_REQUIRED" then
            HealthCheckResult.video_unavailable
          else
            match r.video_details with
            | some vd =>
              if vd.is_live_content then
                let upstream_duration := vd.video_duration
                if (dd - upstream_duration).natAbs > 1 then
                  match responseEstimatedDuration r with
                  | some e =>
                    if e ≠ 0 && upstream_duration < e then
                      HealthCheckResult.stream_length_differs
                    else HealthCheckResult.ok
                  | none => HealthCheckResult.ok
                else HealthCheckResult.ok
              else HealthCheckResult.ok
            | none => HealthCheckResult.ok

/-- `DownloadJob._get_next_healthcheck_interval` (tasks.py lines
493-513): walk the escalating table in insertion order and return the
sleep interval of the first threshold strictly greater than the time
elapsed since the finish time; `none` with no finish time or beyond the
last threshold.  All quantities are microseconds. -/
def get_next_healthcheck_interval (now : Time) (j : DownloadJob) : Option Time :=
  match j.download_finish_datetime with
  | none => none
  | some fin =>
    let duration_since_complete := now - fin
    if 3600000000 > duration_since_complete then some 300000000
    else if 21600000000 > duration_since_complete then some 1800000000
    else if 86400000000 > duration_since_complete then some 3600000000
    else if 259200000000 > duration_since_complete then some 14400000000
    else none

end DownloadJob

/-!
Embedding of `moombox.feed_monitor` (and the channel configuration it
reads).  The regular-expression engine, the `unidecode` transliterator
and the `unicodedata` category table are external collaborators; they
are modelled at their interfaces: a compiled pattern is its boolean
search function, the category table is an explicit function argument
where a claim is category-generic, and concrete model functions cover
the code points exercised by the concrete inputs below.
-/

/-- Python `\s` (whitespace class) on the ASCII range, which covers
every character of the inputs considered here. -/
def isSpaceChar (c : Char) : Bool :=
  c = ' ' || c = '\t' || c = '\n' || c = '\x0d' || c = '\x0b' || c = '\x0c'

/-- Python `\w` (word-character class) on the ASCII range. -/
def isWordChar (c : Char) : Bool :=
  ('a' ≤ c && c ≤ 'z') || ('A' ≤ c && c ≤ 'Z') || ('0' ≤ c && c ≤ '9') || c = '_'

/-- `[a-z]` under the `(?i)` flag. -/
def isAsciiLetter (c : Char) : Bool :=
  ('a' ≤ c && c ≤ 'z') || ('A' ≤ c && c ≤ 'Z')

/-- ASCII lowercasing, the effect of the `(?i)` flag on the patterns
and texts considered here. -/
def lowerAscii (c : Char) : Char :=
  if 'A' ≤ c && c ≤ 'Z' then Char.ofNat (c.toNat + 32) else c

/-- One sweep of `_compress_spaces.sub("", ...)` (feed_monitor.py line
28, pattern `(?i)(?<=\b[a-z])\s+(?=[a-z]\b)`): delete every maximal
whitespace run whose immediately preceding character is a single letter
(a letter with a word boundary before it) and whose immediately
following character is a single letter (a letter with a word boundary
after it).  `p2`/`p1` carry the two characters preceding the current
position in the original string; `inDeletedRun` records whether the
whitespace run being traversed was judged deleted at its first
character.  `re.sub` matches against the original string, so this
per-run characterization is exact. -/
def compress_spaces_aux (p2 p1 : Option Char) (inDeletedRun : Bool) :
    List Char → List Char
  | [] => []
  | c :: rest =>
    if isSpaceChar c then
      let midRun :=
        match p1 with
        | some a => isSpaceChar a
        | none => false
      let del :=
        if midRun then inDeletedRun
        else
          let okBefore :=
            match p2, p1 with
            | _, none => false
            | none, some a => isAsciiLetter a
            | some b, some a => isAsciiLetter a && !(isWordChar b)
          let rest2 := rest.dropWhile isSpaceChar
          let okAfter :=
            match rest2 with
            | [] => false
            | d :: rest3 =>
              isAsciiLetter d &&
                (match rest3 with
                 | [] => true
                 | e :: _ => !(isWordChar e))
          okBefore && okAfter
      (if del then [] else [c]) ++ compress_spaces_aux p1 (some c) del rest
    else
      c :: compress_spaces_aux p1 (some c) false rest

/-- `_compress_spaces.sub("", text)`: merge single characters that are
spaced out. -/
def compress_spaces_sub (text : String) : String :=
  String.mk (compress_spaces_aux none none false text.toList)

/-- Modelled from the external `unidecode` library at its interface:
ASCII characters transliterate to themselves, and the two CJK
lenticular brackets appearing in the concrete inputs below map to their
ASCII bracket equivalents.  Other code points are immaterial to the
statements proved here and are kept as-is. -/
def unidecodeChar (c : Char) : String :=
  if c = '【' then "["
  else if c = '】' then "]"
  else String.mk [c]

/-- `unidecode.unidecode` on a whole string. -/
def unidecodeStr (text : String) : String :=
  String.join (text.toList.map unidecodeChar)

/-- Modelled from the external `unicodedata.category` table on the code
point ranges exercised here: the combining diacritical marks block is
`Mn`, the CJK lenticular brackets are opening/closing punctuation,
ASCII letters/digits/space get their standard categories, everything
else is mapped to a non-mark placeholder. -/
def unicodeCategory (c : Char) : String :=
  if 0x300 ≤ c.toNat && c.toNat ≤ 0x36F then "Mn"
  else if c = '【' then "Ps"
  else if c = '】' then "Pe"
  else if 'A' ≤ c && c ≤ 'Z' then "Lu"
  else if 'a' ≤ c && c ≤ 'z' then "Ll"
  else if '0' ≤ c && c ≤ '9' then "Nd"
  else if c = ' ' then "Zs"
  else "Po"

/-- `moombox.feed_monitor.strip_marks` (feed_monitor.py lines 33-41),
generic in the category table: keep exactly the characters whose
category is neither `Mn` nor `Me`. -/
def stripMarksWith (cat : Char → String) (text : String) : String :=
  String.mk (text.toList.filter (fun c => !(cat c = "Mn" || cat c = "Me")))

/-- `strip_marks` with the concrete category model. -/
def strip_marks (text : String) : String :=
  stripMarksWith unicodeCategory text

/-- A compiled pattern (`typing.Pattern`) at its interface: the
truthiness of `pattern.search(haystack)`. -/
abbrev SearchPattern := String → Bool

/-- The four normalized haystacks built by `get_pattern_matches`
(feed_monitor.py lines 47-52). -/
def patternHaystacks (input : String) : List String :=
  [input,
   unidecodeStr input,
   compress_spaces_sub (unidecodeStr input),
   strip_marks input]

/-- `moombox.feed_monitor.get_pattern_matches` (feed_monitor.py lines
44-57): the terms of the pattern map whose pattern matches at least one
of the four haystacks.  (Python returns these as a set; the association
list keeps the map's iteration order.) -/
def get_pattern_matches (pattern_map : List (String × SearchPattern)) (input : String) :
    List String :=
  (pattern_map.filter (fun tp => (patternHaystacks input).any (fun h => tp.2 h))).map
    Prod.fst

/-- Semantics of the compiled rule pattern `(?i)(\W|^)karaoke`
(tests/test_pattern_map.py): some occurrence of "karaoke"
(case-insensitively) is preceded by a non-word character or sits at the
start of the haystack. -/
def karaokeSearch : SearchPattern := fun s =>
  let cs := s.toList
  (List.range (cs.length + 1)).any (fun i =>
    ((cs.drop i).take 7).map lowerAscii = "karaoke".toList &&
      (match (cs.take i).getLast? with
       | none => true
       | some c => !(isWordChar c)))

/-- One parsed feed entry, with the fields `get_channel_matches` reads
(`feedparser` is an external collaborator). -/
structure FeedEntry where
  title : String := ""
  summary : String := ""
  link : String := ""
  yt_videoid : String := ""
  author : String := ""
  deriving Repr, DecidableEq, Inhabited

/-- Split a character list at every newline character. -/
def splitNl : List Char → List (List Char)
  | [] => [[]]
  | c :: rest =>
    if c = '\n' then [] :: splitNl rest
    else
      match splitNl rest with
      | [] => [[c]]
      | p :: ps => (c :: p) :: ps

/-- Python `str.splitlines()` for strings whose line terminator is
`"\n"` (the only terminator relevant here): the empty string has no
lines and a trailing newline does not open a final empty line. -/
def pySplitlines (s : String) : List String :=
  if s.toList = [] then []
  else
    let parts := (splitNl s.toList).map String.mk
    if parts.getLast? = some "" then parts.dropLast else parts

/-- Python `str.rstrip()` restricted to ASCII whitespace. -/
def pyRstrip (s : String) : String :=
  String.mk (s.toList.reverse.dropWhile isSpaceChar).reverse

/-- `"\n".join(...)` (Python). -/
def joinLines : List String → String
  | [] => ""
  | [l] => l
  | l :: rest => l ++ "\n" ++ joinLines rest

/-- `moombox.feed_monitor._sliding_window` (feed_monitor.py lines
60-69): all length-`n` windows of the list in order.  The generator
primes a deque with the first `n` items, yields it if full, then slides
one item at a time; a list shorter than `n` yields nothing. -/
def sliding_window (l : List α) (n : Nat) : List (List α) :=
  (List.range (l.length + 1 - n)).map (fun i => (l.drop i).take n)

/-- `moombox.config.YouTubeChannelMonitorConfig` (config.py lines
106-116), with each compiled pattern at its search-function
interface. -/
structure YouTubeChannelMonitorConfig where
  id : String
  num_desc_lookbehind : Nat := 2
  name : Option String := none
  terms : List (String × SearchPattern) := []
  include_non_live_content : Bool := false

/-- The pairing performed by the loop header of `get_channel_matches`
(feed_monitor.py line 99): each window produced by
`_sliding_window(feed.entries, channel.num_desc_lookbehind)` is
unpacked as `entry, *older_entries`, so the considered entry is the
window's first element and the remaining window elements are the
following (older, since the feed is newest-first) entries.  (With a
lookbehind of 0 the Python unpacking of the empty window raises
`ValueError`; that configuration yields no pair here and is outside
every claim.) -/
def channelEntryPairs (n : Nat) (entries : List FeedEntry) :
    List (FeedEntry × List FeedEntry) :=
  (sliding_window entries n).filterMap
    (fun w =>
      match w with
      | [] => none
      | e :: older => some (e, older))

/-- The `older_item_lines` accumulation of `get_channel_matches`
(feed_monitor.py lines 103-105): every trailing-whitespace-trimmed line
of every paired older entry's description.  (Python collects these into
a set; only membership is consumed.) -/
def older_item_lines (older : List FeedEntry) : List String :=
  (older.map (fun it => (pySplitlines it.summary).map pyRstrip)).flatten

/-- The `summary_unique_lines` computation of `get_channel_matches`
(feed_monitor.py lines 107-112): keep, in order, the trimmed lines of
the entry's description that do not occur among the older entries'
trimmed lines, joined back with newlines. -/
def summary_unique_lines (entry : FeedEntry) (older : List FeedEntry) : String :=
  joinLines
    (((pySplitlines entry.summary).map pyRstrip).filter
      (fun line => !((older_item_lines older).contains line)))

/-- `moombox.feed_monitor.FeedItemMatch` (without the back-reference to
the channel configuration). -/
structure FeedItemMatch where
  url : String
  video_id : String
  author : String
  matching_terms : List String
  deriving Repr, DecidableEq

/-- The per-entry matching of `get_channel_matches` (feed_monitor.py
lines 99-125) on an already-fetched entry list: for every considered
entry, run the pattern matcher on its title and on its deduplicated
description, and emit a match when any term matched. -/
def get_channel_matches (channel : YouTubeChannelMonitorConfig)
    (entries : List FeedEntry) : List FeedItemMatch :=
  (channelEntryPairs channel.num_desc_lookbehind entries).filterMap
    (fun pr =>
      let su := summary_unique_lines pr.1 pr.2
      let matching_terms :=
        (get_pattern_matches channel.terms pr.1.title ++
          get_pattern_matches channel.terms su).eraseDups
      if matching_terms.isEmpty then none
      else some ⟨pr.1.link, pr.1.yt_videoid, pr.1.author, matching_terms⟩)

/-!
Claims.  Each claim of the specification gets one theorem (with a
counterexample theorem first when the claim fails on the code).
-/

/-- C1, counterexample: the claim says every terminal status (here
FINISHED) is left unchanged by every subsequent engine event, but
handling a stream-info event on a FINISHED job rewrites the status to
WAITING. -/
theorem C1_counterexample :
    (DownloadJob.handle_message 0 { id := "job", status := DownloadStatus.finished }
        (EngineMessage.streamInfo "title" none)).status = DownloadStatus.waiting ∧
    DownloadStatus.waiting ≠ DownloadStatus.finished := by
  exact ⟨by decide, by decide⟩

/-- C1 (amended): `handle_message` sets the status purely from the
event kind, regardless of the current status — so a terminal status
(FINISHED, ERROR, CANCELLED, UNAVAILABLE) is left unchanged exactly by
the events that carry no status (format-selection, free-text,
mux-progress, unrecognized), while the six status-bearing events
(stream-info, fragment, job-finished, failed-output-move, stream-mux,
stream-unavailable) overwrite even a terminal status with their fixed
target. -/
theorem C1_amended_handler_status_effects :
    ∀ (now : Time) (j : DownloadJob),
      (∀ t sd, (DownloadJob.handle_message now j (.streamInfo t sd)).status =
        DownloadStatus.waiting) ∧
      (∀ mid mt cf mf fs,
        (DownloadJob.handle_message now j (.fragment mid mt cf mf fs)).status =
          DownloadStatus.downloading) ∧
      (∀ ps, (DownloadJob.handle_message now j (.downloadJobFinished ps)).status =
        DownloadStatus.finished) ∧
      (DownloadJob.handle_message now j .downloadJobFailedOutputMove).status =
        DownloadStatus.error ∧
      (DownloadJob.handle_message now j .streamMux).status = DownloadStatus.muxing ∧
      (DownloadJob.handle_message now j .streamUnavailable).status =
        DownloadStatus.unavailable ∧
      (∀ mid mt ql br itag tds cp,
        (DownloadJob.handle_message now j
          (.formatSelection mid mt ql br itag tds cp)).status = j.status) ∧
      (∀ t, (DownloadJob.handle_message now j (.stringMsg t)).status = j.status) ∧
      (∀ mid prog, (DownloadJob.handle_message now j
        (.streamMuxProgress mid prog)).status = j.status) ∧
      (DownloadJob.handle_message now j .unrecognized).status = j.status := by
  intro now j
  refine ⟨?_, ?_, ?_, ?_, ?_, ?_, ?_, ?_, ?_, ?_⟩
  · intro t sd
    dsimp only [DownloadJob.handle_message]
    split <;> rfl
  · intro mid mt cf mf fs
    rfl
  · intro ps
    rfl
  · rfl
  · rfl
  · rfl
  · intro mid mt ql br itag tds cp
    dsimp only [DownloadJob.handle_message, DownloadJob.append_message]
    split
    · rfl
    · split
      · split <;> rfl
      · rfl
  · intro t
    rfl
  · intro mid prog
    rfl
  · rfl

/-- Concrete FINISHED job for exercising the health check: known video
id, a single manifest with 100 s of muxed output. -/
def c2Job : DownloadJob :=
  { id := "c2", video_id := some "v", status := DownloadStatus.finished,
    manifest_progress := [("v.1", { output := { out_time_us := some 100000000 } })] }

/-- Upstream response reporting a 50 s live video with an in-progress
broadcast estimate of 200 s. -/
def c2ResponseWithEstimate : YouTubePlayerResponse :=
  { video_details := some { video_duration := 50, is_live_content := true },
    playability_status := some { status := "OK" },
    microformat := some
      ⟨some ⟨some ⟨some 0, some 200000000, true⟩⟩⟩ }

/-- Upstream response reporting a 50 s live video with no broadcast
details at all. -/
def c2ResponseNoEstimate : YouTubePlayerResponse :=
  { video_details := some { video_duration := 50, is_live_content := true },
    playability_status := some { status := "OK" } }

/-- Evaluation of the estimated-duration chain on the concrete
response. -/
theorem c2_est_eval : responseEstimatedDuration c2ResponseWithEstimate = some 200 := by
  have h : (200000000 : ℚ) / 1000000 = ((200 : Int) : ℚ) := by norm_num
  simp [responseEstimatedDuration, c2ResponseWithEstimate,
    YouTubeVideoBroadcastDetails.estimated_duration, ratTrunc]
  simp only [h, Int.floor_intCast]
  norm_num

/-- C2, counterexample: archived duration 100 s, upstream reported
50 s (difference 50 s > 1 s), upstream estimated duration 200 s > 50 s
— the claim says this must NOT be flagged, but the code returns
STREAM_LENGTH_DIFFERS; with no estimated duration at all the claim says
STREAM_LENGTH_DIFFERS, but the code returns OK. -/
theorem C2_counterexample :
    DownloadJob.downloaded_duration c2Job = some 100 ∧
    DownloadJob.fetch_health_status c2Job (some c2ResponseWithEstimate) =
      HealthCheckResult.stream_length_differs ∧
    HealthCheckResult.stream_length_differs ≠ HealthCheckResult.ok ∧
    DownloadJob.fetch_health_status c2Job (some c2ResponseNoEstimate) =
      HealthCheckResult.ok ∧
    HealthCheckResult.ok ≠ HealthCheckResult.stream_length_differs := by
  have hdd : DownloadJob.downloaded_duration c2Job = some 100 := by decide
  have hv : optStrTruthy c2Job.video_id = true := by decide
  have hps : c2ResponseWithEstimate.playability_status =
      some { status := "OK" } := rfl
  have hvd : c2ResponseWithEstimate.video_details =
      some { video_duration := 50, is_live_content := true } := rfl
  have hps2 : c2ResponseNoEstimate.playability_status =
      some { status := "OK" } := rfl
  have hvd2 : c2ResponseNoEstimate.video_details =
      some { video_duration := 50, is_live_content := true } := rfl
  have hest2 : responseEstimatedDuration c2ResponseNoEstimate = none := rfl
  refine ⟨hdd, ?_, by decide, ?_, by decide⟩
  · simp only [DownloadJob.fetch_health_status, hv, hdd, hps, hvd, c2_est_eval]
    decide
  · simp only [DownloadJob.fetch_health_status, hv, hdd, hps2, hvd2, hest2]
    decide

/-- C2 (amended): for a health check on a job with a known (truthy)
video id and a determined downloaded duration, where the upstream
response has a playability block whose status is not login-required and
live video details: when the archived and reported durations differ by
more than 1 second, the result is STREAM_LENGTH_DIFFERS exactly when
upstream exposes a nonzero estimated duration strictly larger than the
reported duration (broadcast still being finalized), and OK otherwise —
the opposite branch assignment from the claim. -/
theorem C2_amended_live_duration_check :
    ∀ (j : DownloadJob) (r : YouTubePlayerResponse) (dd : Int)
      (vd : YouTubeVideoDetails) (ps : YouTubePlayabilityStatus),
      optStrTruthy j.video_id = true →
      j.downloaded_duration = some dd →
      r.playability_status = some ps →
      ps.status ≠ "LOGIN_REQUIRED" →
      r.video_details = some vd →
      vd.is_live_content = true →
      (dd - vd.video_duration).natAbs > 1 →
      DownloadJob.fetch_health_status j (some r) =
        (match responseEstimatedDuration r with
         | some e =>
           if e ≠ 0 && vd.video_duration < e then
             HealthCheckResult.stream_length_differs
           else HealthCheckResult.ok
         | none => HealthCheckResult.ok) := by
  intro j r dd vd ps hv hdd hps hlogin hvd hlive hdiff
  simp only [DownloadJob.fetch_health_status, hv, hdd, hps, hvd, hlive,
    Bool.not_true, Bool.false_eq_true, if_false, if_neg hlogin, if_pos hdiff,
    if_true]

/-- C2 witness: the amended theorem applied at the concrete job and
responses. -/
theorem C2_amended_live_duration_check_witness :
    DownloadJob.fetch_health_status c2Job (some c2ResponseWithEstimate) =
      HealthCheckResult.stream_length_differs ∧
    DownloadJob.fetch_health_status c2Job (some c2ResponseNoEstimate) =
      HealthCheckResult.ok := by
  constructor
  · have h := C2_amended_live_duration_check c2Job c2ResponseWithEstimate 100
      { video_duration := 50, is_live_content := true } { status := "OK" }
      (by decide) (by decide) (by decide) (by decide) (by decide) (by decide)
      (by decide)
    rw [h, c2_est_eval]
    decide
  · have h := C2_amended_live_duration_check c2Job c2ResponseNoEstimate 100
      { video_duration := 50, is_live_content := true } { status := "OK" }
      (by decide) (by decide) (by decide) (by decide) (by decide) (by decide)
      (by decide)
    rw [h]
    decide

/-- C3, counterexample: two priority-0 sort keys (both FINISHED) whose
reference times are both present are reordered by the comparator
(`__lt__` reports the earlier one as less), and a pair with one absent
reference time but different status priorities is also reordered —
contradicting the claim that neither side is ever reported less in
those situations. -/
theorem C3_counterexample :
    DownloadJob.SortKey.lt ⟨DownloadStatus.finished, some 0⟩
      ⟨DownloadStatus.finished, some 1⟩ = true ∧
    DownloadJob.SortKey.lt ⟨DownloadStatus.waiting, some 0⟩
      ⟨DownloadStatus.unknown, none⟩ = true := by
  decide

/-- C3 (amended): `SortKey.__lt__` falls back to insertion order
(reports neither side as less) exactly when the two status priorities
are equal and either reference time is absent; for two keys that both
have priority 0 and both have reference times, the earlier time is
reported as less (ascending by time). -/
theorem C3_amended_comparator_ties :
    (∀ a b : DownloadJob.SortKey,
      a.status.sort_key = b.status.sort_key →
      (a.event_datetime = none ∨ b.event_datetime = none) →
      DownloadJob.SortKey.lt a b = false ∧ DownloadJob.SortKey.lt b a = false) ∧
    (∀ (s1 s2 : DownloadStatus) (t1 t2 : Time),
      s1.sort_key = 0 → s2.sort_key = 0 →
      (DownloadJob.SortKey.lt ⟨s1, some t1⟩ ⟨s2, some t2⟩ = true ↔ t1 < t2)) := by
  have key : ∀ c d : DownloadJob.SortKey,
      c.status.sort_key = d.status.sort_key →
      (c.event_datetime = none ∨ d.event_datetime = none) →
      DownloadJob.SortKey.lt c d = false := by
    intro c d hp hab
    unfold DownloadJob.SortKey.lt
    rw [if_neg (by simp [hp])]
    cases hc : c.event_datetime <;> cases hd : d.event_datetime <;> simp_all
  constructor
  · intro a b hpr habs
    exact ⟨key a b hpr habs, key b a hpr.symm habs.symm⟩
  · intro s1 s2 t1 t2 h1 h2
    cases s1 <;> cases s2 <;>
      simp_all [DownloadJob.SortKey.lt, DownloadStatus.sort_key]

/-- C3 witness: the amended theorem applied at concrete keys — two
FINISHED keys with absent times do not reorder, and two FINISHED keys
with times 3 and 7 compare ascending. -/
theorem C3_amended_comparator_ties_witness :
    (DownloadJob.SortKey.lt ⟨DownloadStatus.finished, none⟩
        ⟨DownloadStatus.finished, some 5⟩ = false ∧
      DownloadJob.SortKey.lt ⟨DownloadStatus.finished, some 5⟩
        ⟨DownloadStatus.finished, none⟩ = false) ∧
    (DownloadJob.SortKey.lt ⟨DownloadStatus.finished, some 3⟩
        ⟨DownloadStatus.finished, some 7⟩ = true ↔ (3 : Time) < 7) := by
  constructor
  · exact C3_amended_comparator_ties.1 ⟨DownloadStatus.finished, none⟩
      ⟨DownloadStatus.finished, some 5⟩ (by decide) (Or.inl rfl)
  · exact C3_amended_comparator_ties.2 DownloadStatus.finished
      DownloadStatus.finished 3 7 (by decide) (by decide)

/-- Helper: a `filterMap` whose function succeeds everywhere is a
`map`. -/
theorem filterMap_eq_map_of {α β : Type _} (f : α → Option β) (g : α → β)
    (l : List α) (h : ∀ a ∈ l, f a = some (g a)) : l.filterMap f = l.map g := by
  induction l with
  | nil => rfl
  | cons a t ih =>
    have ha := h a (List.mem_cons_self a t)
    have ht : ∀ x ∈ t, f x = some (g x) :=
      fun x hx => h x (List.mem_cons_of_mem a hx)
    simp [List.filterMap_cons, ha, ih ht]

/-- Closed form of the sliding-window pairing: with a positive window
size `n + 1`, the considered entries are the first
`entries.length - n` entries, and entry `i` is paired with the `n`
entries that follow it. -/
theorem channelEntryPairs_eq (n : Nat) (entries : List FeedEntry) :
    channelEntryPairs (n + 1) entries =
      (List.range (entries.length - n)).map
        (fun i => (entries.getD i default, (entries.drop (i + 1)).take n)) := by
  unfold channelEntryPairs sliding_window
  have hlen : entries.length + 1 - (n + 1) = entries.length - n := by omega
  rw [hlen, List.filterMap_map]
  apply filterMap_eq_map_of
  intro i hi
  rw [List.mem_range] at hi
  have hilt : i < entries.length := by omega
  have hdrop : entries.drop i = entries[i] :: entries.drop (i + 1) :=
    List.drop_eq_getElem_cons hilt
  simp only [Function.comp]
  rw [hdrop, List.take_succ_cons]
  simp [List.getD_eq_getElem?_getD, List.getElem?_eq_getElem hilt]

/-- Concrete three-entry feed: the newest entry and the second-older
entry share the boilerplate line, the immediately older entry does
not. -/
def c4e0 : FeedEntry := { summary := "boiler\nunique0" }

/-- Middle feed entry with unrelated description. -/
def c4e1 : FeedEntry := { summary := "other" }

/-- Oldest feed entry sharing the boilerplate line with the newest. -/
def c4e2 : FeedEntry := { summary := "boiler\nmore" }

/-- C4, counterexample: with `num_desc_lookbehind = 2` the code pairs
each considered entry with only one older entry (the window of size 2
includes the entry itself), not two as the claim states; consequently
the boilerplate line shared with the second-older entry is NOT
stripped, while pairing with the claimed two older entries would strip
it. -/
theorem C4_counterexample :
    (channelEntryPairs 2 [c4e0, c4e1, c4e2]).map
        (fun pr => pr.2.length) = [1, 1] ∧
    (1 : Nat) ≠ 2 ∧
    (channelEntryPairs 2 [c4e0, c4e1, c4e2]).map (fun pr => pr.2) =
      [[c4e1], [c4e2]] ∧
    summary_unique_lines c4e0 [c4e1] = "boiler\nunique0" ∧
    summary_unique_lines c4e0 [c4e1, c4e2] = "unique0" := by
  refine ⟨by decide, by decide, by decide, by decide, by decide⟩

/-- C4 (amended): each considered feed entry is paired with
`num_desc_lookbehind - 1` most-recent older entries (the sliding window
of size `num_desc_lookbehind` includes the considered entry itself),
and from the entry's description exactly those trailing-whitespace-
trimmed lines that occur verbatim among the paired older entries'
trimmed lines are stripped; the kept (trimmed) lines preserve their
original order. -/
theorem C4_amended_window_pairing :
    (∀ (n : Nat) (entries : List FeedEntry),
      channelEntryPairs (n + 1) entries =
        (List.range (entries.length - n)).map
          (fun i => (entries.getD i default, (entries.drop (i + 1)).take n))) ∧
    (∀ (entry : FeedEntry) (older : List FeedEntry),
      (((pySplitlines entry.summary).map pyRstrip).filter
          (fun line => !((older_item_lines older).contains line))).Sublist
        ((pySplitlines entry.summary).map pyRstrip) ∧
      (∀ line,
        line ∈ ((pySplitlines entry.summary).map pyRstrip).filter
            (fun line => !((older_item_lines older).contains line)) ↔
          line ∈ (pySplitlines entry.summary).map pyRstrip ∧
            line ∉ older_item_lines older) ∧
      summary_unique_lines entry older =
        joinLines
          (((pySplitlines entry.summary).map pyRstrip).filter
            (fun line => !((older_item_lines older).contains line)))) := by
  refine ⟨channelEntryPairs_eq, ?_⟩
  intro entry older
  refine ⟨List.filter_sublist _, ?_, rfl⟩
  intro line
  simp [List.mem_filter]

/-- C4 witness: the amended pairing applied at the concrete three-entry
feed with lookbehind 2, and the concrete stripping outcome. -/
theorem C4_amended_window_pairing_witness :
    channelEntryPairs 2 [c4e0, c4e1, c4e2] =
      (List.range 2).map
        (fun i => (([c4e0, c4e1, c4e2].getD i default),
          (([c4e0, c4e1, c4e2].drop (i + 1)).take 1))) ∧
    ("boiler" ∈ ((pySplitlines c4e0.summary).map pyRstrip).filter
        (fun line => !((older_item_lines [c4e1]).contains line)) ↔
      "boiler" ∈ (pySplitlines c4e0.summary).map pyRstrip ∧
        "boiler" ∉ older_item_lines [c4e1]) := by
  constructor
  · exact C4_amended_window_pairing.1 1 [c4e0, c4e1, c4e2]
  · exact ((C4_amended_window_pairing.2 c4e0 [c4e1]).2.1 "boiler")

/-- C5: `sort_key` orders jobs consistently with the claim — an
UNKNOWN job's key is strictly greater than any other job's key (sorts
above all), a DOWNLOADING job's key is strictly greater than any
WAITING job's key, a WAITING job's key is strictly greater than any
terminal-status job's key, and of two WAITING jobs with scheduled start
times the one with the later (larger) time has the strictly smaller key
(descending by start time: it comes first in the ascending sorted
list).  Here "x sorts above y" is `lt y.key x.key = true` together
with `lt x.key y.key = false`. -/
theorem C5_sort_key_order :
    (∀ j1 j2 : DownloadJob, j1.status = DownloadStatus.unknown →
      j2.status ≠ DownloadStatus.unknown →
      DownloadJob.SortKey.lt j2.sort_key j1.sort_key = true ∧
      DownloadJob.SortKey.lt j1.sort_key j2.sort_key = false) ∧
    (∀ j1 j2 : DownloadJob, j1.status = DownloadStatus.downloading →
      j2.status = DownloadStatus.waiting →
      DownloadJob.SortKey.lt j2.sort_key j1.sort_key = true ∧
      DownloadJob.SortKey.lt j1.sort_key j2.sort_key = false) ∧
    (∀ j1 j2 : DownloadJob, j1.status = DownloadStatus.waiting →
      (j2.status = DownloadStatus.finished ∨ j2.status = DownloadStatus.error ∨
        j2.status = DownloadStatus.cancelled ∨
        j2.status = DownloadStatus.unavailable) →
      DownloadJob.SortKey.lt j2.sort_key j1.sort_key = true ∧
      DownloadJob.SortKey.lt j1.sort_key j2.sort_key = false) ∧
    (∀ (j1 j2 : DownloadJob) (t1 t2 : Time),
      j1.status = DownloadStatus.waiting → j2.status = DownloadStatus.waiting →
      j1.scheduled_start_datetime = some t1 →
      j2.scheduled_start_datetime = some t2 → t2 < t1 →
      DownloadJob.SortKey.lt j1.sort_key j2.sort_key = true ∧
      DownloadJob.SortKey.lt j2.sort_key j1.sort_key = false) := by
  have hstat : ∀ j : DownloadJob, (DownloadJob.sort_key j).status = j.status := by
    intro j
    unfold DownloadJob.sort_key
    cases j.status <;> rfl
  refine ⟨?_, ?_, ?_, ?_⟩
  · intro j1 j2 h1 h2
    unfold DownloadJob.SortKey.lt
    rw [hstat, hstat, h1]
    cases hs : j2.status <;> simp_all [DownloadStatus.sort_key]
  · intro j1 j2 h1 h2
    unfold DownloadJob.SortKey.lt
    rw [hstat, hstat, h1, h2]
    simp [DownloadStatus.sort_key]
  · intro j1 j2 h1 h2
    unfold DownloadJob.SortKey.lt
    rw [hstat, hstat, h1]
    rcases h2 with h | h | h | h <;> rw [h] <;> simp [DownloadStatus.sort_key]
  · intro j1 j2 t1 t2 h1 h2 ht1 ht2 hlt
    have k1 : DownloadJob.sort_key j1 = ⟨DownloadStatus.waiting, some t1⟩ := by
      unfold DownloadJob.sort_key
      rw [h1, ht1]
    have k2 : DownloadJob.sort_key j2 = ⟨DownloadStatus.waiting, some t2⟩ := by
      unfold DownloadJob.sort_key
      rw [h2, ht2]
    rw [k1, k2]
    unfold DownloadJob.SortKey.lt
    simp [DownloadStatus.sort_key, hlt, not_lt_of_lt hlt, le_of_lt hlt]

/-- Concrete jobs used to instantiate the ordering facts. -/
def c5JobUnknown : DownloadJob := { id := "u" }

/-- A FINISHED job. -/
def c5JobFinished : DownloadJob := { id := "f", status := DownloadStatus.finished }

/-- A DOWNLOADING job. -/
def c5JobDownloading : DownloadJob :=
  { id := "d", status := DownloadStatus.downloading }

/-- A WAITING job. -/
def c5JobWaiting : DownloadJob := { id := "w", status := DownloadStatus.waiting }

/-- A CANCELLED job. -/
def c5JobCancelled : DownloadJob := { id := "c", status := DownloadStatus.cancelled }

/-- A WAITING job scheduled at time 10. -/
def c5JobWaitingLate : DownloadJob :=
  { id := "w1", status := DownloadStatus.waiting,
    scheduled_start_datetime := some 10 }

/-- A WAITING job scheduled at time 3. -/
def c5JobWaitingSoon : DownloadJob :=
  { id := "w2", status := DownloadStatus.waiting,
    scheduled_start_datetime := some 3 }

/-- C5 witness: the ordering facts applied to concrete jobs — an
UNKNOWN job vs a FINISHED job, a DOWNLOADING vs a WAITING job, a
WAITING vs a CANCELLED job, and two WAITING jobs scheduled at times 10
and 3. -/
theorem C5_sort_key_order_witness :
    DownloadJob.SortKey.lt c5JobFinished.sort_key c5JobUnknown.sort_key = true ∧
    DownloadJob.SortKey.lt c5JobWaiting.sort_key c5JobDownloading.sort_key = true ∧
    DownloadJob.SortKey.lt c5JobCancelled.sort_key c5JobWaiting.sort_key = true ∧
    DownloadJob.SortKey.lt c5JobWaitingLate.sort_key c5JobWaitingSoon.sort_key =
      true := by
  refine ⟨?_, ?_, ?_, ?_⟩
  · exact (C5_sort_key_order.1 c5JobUnknown c5JobFinished rfl (by decide)).1
  · exact (C5_sort_key_order.2.1 c5JobDownloading c5JobWaiting rfl rfl).1
  · exact (C5_sort_key_order.2.2.1 c5JobWaiting c5JobCancelled rfl
      (Or.inr (Or.inr (Or.inl rfl)))).1
  · exact (C5_sort_key_order.2.2.2 c5JobWaitingLate c5JobWaitingSoon 10 3
      rfl rfl rfl rfl (by decide)).1

/-- C6: the healthcheck scheduling table.  With no finish time the
interval is `none`; otherwise, for elapsed time `t = now - finish` (in
microseconds), the interval is 5 minutes for `t < 1h`, 30 minutes for
`1h ≤ t < 6h`, 1 hour for `6h ≤ t < 1d`, 4 hours for `1d ≤ t < 3d`,
and `none` for `t ≥ 3d`. -/
theorem C6_healthcheck_interval_table :
    ∀ (now : Time) (j : DownloadJob),
      (j.download_finish_datetime = none →
        DownloadJob.get_next_healthcheck_interval now j = none) ∧
      (∀ fin, j.download_finish_datetime = some fin →
        (now - fin < 3600000000 →
          DownloadJob.get_next_healthcheck_interval now j = some 300000000) ∧
        (3600000000 ≤ now - fin → now - fin < 21600000000 →
          DownloadJob.get_next_healthcheck_interval now j = some 1800000000) ∧
        (21600000000 ≤ now - fin → now - fin < 86400000000 →
          DownloadJob.get_next_healthcheck_interval now j = some 3600000000) ∧
        (86400000000 ≤ now - fin → now - fin < 259200000000 →
          DownloadJob.get_next_healthcheck_interval now j = some 14400000000) ∧
        (259200000000 ≤ now - fin →
          DownloadJob.get_next_healthcheck_interval now j = none)) := by
  intro now j
  constructor
  · intro h
    simp [DownloadJob.get_next_healthcheck_interval, h]
  · intro fin hfin
    refine ⟨?_, ?_, ?_, ?_, ?_⟩ <;>
      (simp only [DownloadJob.get_next_healthcheck_interval, hfin];
        intros; split_ifs <;> first | rfl | linarith)

/-- Job finished at time 0, for instantiating the schedule table. -/
def c6JobFin : DownloadJob :=
  { id := "c6", status := DownloadStatus.finished,
    download_finish_datetime := some 0 }

/-- Job with no finish time. -/
def c6JobNoFin : DownloadJob := { id := "c6n" }

/-- C6 witness: the table applied at 30 minutes, 2 hours, 12 hours,
2 days and 4 days after the finish time, and at a job with no finish
time. -/
theorem C6_healthcheck_interval_table_witness :
    DownloadJob.get_next_healthcheck_interval 1800000000 c6JobFin =
      some 300000000 ∧
    DownloadJob.get_next_healthcheck_interval 7200000000 c6JobFin =
      some 1800000000 ∧
    DownloadJob.get_next_healthcheck_interval 43200000000 c6JobFin =
      some 3600000000 ∧
    DownloadJob.get_next_healthcheck_interval 172800000000 c6JobFin =
      some 14400000000 ∧
    DownloadJob.get_next_healthcheck_interval 345600000000 c6JobFin = none ∧
    DownloadJob.get_next_healthcheck_interval 0 c6JobNoFin = none := by
  refine ⟨?_, ?_, ?_, ?_, ?_, ?_⟩
  · exact ((C6_healthcheck_interval_table 1800000000 c6JobFin).2 0 rfl).1
      (by decide)
  · exact (((C6_healthcheck_interval_table 7200000000 c6JobFin).2 0 rfl).2.1
      (by decide) (by decide))
  · exact (((C6_healthcheck_interval_table 43200000000 c6JobFin).2 0 rfl).2.2.1
      (by decide) (by decide))
  · exact (((C6_healthcheck_interval_table 172800000000 c6JobFin).2 0 rfl).2.2.2.1
      (by decide) (by decide))
  · exact (((C6_healthcheck_interval_table 345600000000 c6JobFin).2 0 rfl).2.2.2.2
      (by decide))
  · exact (C6_healthcheck_interval_table 0 c6JobNoFin).1 rfl

/-- FINISHED job with a known video id and one manifest whose mux
output total size is unknown. -/
def c7JobUnknownSize : DownloadJob :=
  { id := "c7a", video_id := some "v", status := DownloadStatus.finished,
    manifest_progress :=
      [("v.1", { output := { out_time_us := some 5000000, total_size := none } })] }

/-- The same job once the mux output total size is known. -/
def c7JobKnownSize : DownloadJob :=
  { id := "c7b", video_id := some "v", status := DownloadStatus.finished,
    manifest_progress :=
      [("v.1", { output := { out_time_us := some 5000000,
                             total_size := some 12345 } })] }

/-- C7: `can_delete_tempfiles` is true exactly when the video id is
known (not `None`), the status is in the delete-eligible set
{CANCELLED, FINISHED, ERROR}, and — when the status is FINISHED — no
manifest's mux output total size is unknown; in particular it is false
for the FINISHED job with an unknown output size and true once the
size is known. -/
theorem C7_can_delete_tempfiles_iff :
    (∀ j : DownloadJob,
      j.can_delete_tempfiles = true ↔
        (j.video_id ≠ none ∧
         (j.status = DownloadStatus.cancelled ∨
           j.status = DownloadStatus.finished ∨
           j.status = DownloadStatus.error) ∧
         (j.status = DownloadStatus.finished →
           ∀ p ∈ j.manifest_progress, p.2.output.total_size ≠ none))) ∧
    c7JobUnknownSize.can_delete_tempfiles = false ∧
    c7JobKnownSize.can_delete_tempfiles = true := by
  refine ⟨?_, by decide, by decide⟩
  intro j
  by_cases hv : j.video_id = none
  · simp [DownloadJob.can_delete_tempfiles, hv]
  · cases hst : j.status <;>
      simp [DownloadJob.can_delete_tempfiles,
        DownloadStatus.can_delete_tempfiles, hv, hst, List.any_eq_true]

/-- The single manifest entry of `c7JobUnknownSize`. -/
def c7PairUnknownSize : String × DownloadManifestProgress :=
  ("v.1", { output := { out_time_us := some 5000000, total_size := none } })

/-- C7 witness: the characterization applied to the two concrete
FINISHED jobs. -/
theorem C7_can_delete_tempfiles_iff_witness :
    c7JobKnownSize.can_delete_tempfiles = true ∧
    ¬ (c7JobUnknownSize.can_delete_tempfiles = true) := by
  constructor
  · exact (C7_can_delete_tempfiles_iff.1 c7JobKnownSize).mpr
      ⟨by decide, Or.inr (Or.inl rfl), by decide⟩
  · intro h
    have hchar := (C7_can_delete_tempfiles_iff.1 c7JobUnknownSize).mp h
    exact hchar.2.2 rfl c7PairUnknownSize (by decide) rfl

/-- C8: `get_pattern_matches` tests every rule's pattern against the
four normalized variants of the input (raw, transliterated,
transliterated with single-letter run-spacing collapsed, and
mark-stripped) and returns exactly the terms whose pattern matches at
least one variant; in particular the concrete karaoke obfuscation
round-trips. -/
theorem C8_pattern_matches_spec :
    (∀ (pm : List (String × SearchPattern)) (input term : String),
      term ∈ get_pattern_matches pm input ↔
        ∃ p : SearchPattern, (term, p) ∈ pm ∧
          (p input = true ∨ p (unidecodeStr input) = true ∨
           p (compress_spaces_sub (unidecodeStr input)) = true ∨
           p (strip_marks input) = true)) ∧
    get_pattern_matches [("karaoke", karaokeSearch)] "【K A R A O K E】rock" =
      ["karaoke"] := by
  constructor
  · intro pm input term
    simp only [get_pattern_matches, patternHaystacks, List.mem_map,
      List.mem_filter, List.any_eq_true, List.mem_cons,
      List.not_mem_nil, or_false]
    constructor
    · rintro ⟨⟨t, p⟩, ⟨hmem, hmatch⟩, rfl⟩
      refine ⟨p, hmem, ?_⟩
      obtain ⟨x, hx, hpx⟩ := hmatch
      rcases hx with rfl | rfl | rfl | rfl <;> simp_all
    · rintro ⟨p, hmem, hmatch⟩
      refine ⟨(term, p), ⟨hmem, ?_⟩, rfl⟩
      rcases hmatch with h | h | h | h
      · exact ⟨input, by simp, h⟩
      · exact ⟨unidecodeStr input, by simp, h⟩
      · exact ⟨compress_spaces_sub (unidecodeStr input), by simp, h⟩
      · exact ⟨strip_marks input, by simp, h⟩
  · decide

/-- C8 witness: the characterization applied to the concrete rule map
and obfuscated input — "karaoke" is returned because its pattern
matches the collapsed transliterated variant. -/
theorem C8_pattern_matches_spec_witness :
    "karaoke" ∈ get_pattern_matches [("karaoke", karaokeSearch)]
      "【K A R A O K E】rock" := by
  refine (C8_pattern_matches_spec.1 [("karaoke", karaokeSearch)]
    "【K A R A O K E】rock" "karaoke").mpr ?_
  exact ⟨karaokeSearch, by simp, Or.inr (Or.inr (Or.inl (by decide)))⟩

/-- C9: `estimated_download_time_remaining` is `none` exactly when
either the first-update or the last-update timestamp is unset; when
both are set, the clamped current-sequence divisor is at least 1, the
clamped elapsed seconds are at least 1, the divisor of the final
division is therefore strictly positive, and the estimate is `some`
value. -/
theorem C9_estimated_time_remaining_total :
    ∀ p : DownloadManifestProgress,
      (p.estimated_download_time_remaining = none ↔
        (p.download_start_dt = none ∨ p.download_last_update_dt = none)) ∧
      (∀ s l : ℚ, p.download_start_dt = some s →
        p.download_last_update_dt = some l →
        (1 : ℚ) ≤ (p.min_current_seq : ℚ) ∧
        (1 : ℚ) ≤ DownloadManifestProgress.elapsed_seconds s l ∧
        (0 : ℚ) <
          (p.min_current_seq : ℚ) / DownloadManifestProgress.elapsed_seconds s l ∧
        ∃ v, p.estimated_download_time_remaining = some v) := by
  intro p
  constructor
  · cases hs : p.download_start_dt <;> cases hl : p.download_last_update_dt <;>
      simp [DownloadManifestProgress.estimated_download_time_remaining, hs, hl]
  · intro s l hs hl
    have h1 : (1 : Int) ≤ p.min_current_seq := le_max_right _ _
    have h1q : (1 : ℚ) ≤ (p.min_current_seq : ℚ) := by exact_mod_cast h1
    have h2 : (1 : ℚ) ≤ DownloadManifestProgress.elapsed_seconds s l :=
      le_max_left _ _
    refine ⟨h1q, h2, ?_, ?_⟩
    · exact div_pos (lt_of_lt_of_le one_pos h1q) (lt_of_lt_of_le one_pos h2)
    · refine ⟨ratTrunc (((p.max_seq : ℚ) - (p.min_current_seq : ℚ)) /
        ((p.min_current_seq : ℚ) / DownloadManifestProgress.elapsed_seconds s l)),
        ?_⟩
      simp [DownloadManifestProgress.estimated_download_time_remaining, hs, hl]

/-- Concrete manifest progress with both update timestamps set. -/
def c9Prog : DownloadManifestProgress :=
  { video_seq := 7, audio_seq := 9, max_seq := 20,
    download_start_dt := some 0, download_last_update_dt := some 14 }

/-- C9 witness: the totality facts applied at the concrete progress
record. -/
theorem C9_estimated_time_remaining_total_witness :
    (1 : ℚ) ≤ (c9Prog.min_current_seq : ℚ) ∧
    (1 : ℚ) ≤ DownloadManifestProgress.elapsed_seconds 0 14 ∧
    (0 : ℚ) <
      (c9Prog.min_current_seq : ℚ) / DownloadManifestProgress.elapsed_seconds 0 14 ∧
    (∃ v, c9Prog.estimated_download_time_remaining = some v) := by
  exact (C9_estimated_time_remaining_total c9Prog).2 0 14 rfl rfl

/-- C10: `strip_marks` is a pure filter on the character category, so
it is idempotent for every category table and its output contains no
character whose category is `Mn` or `Me`; in particular the concrete
`strip_marks` is idempotent. -/
theorem C10_strip_marks_idempotent :
    (∀ (cat : Char → String) (s : String),
      stripMarksWith cat (stripMarksWith cat s) = stripMarksWith cat s ∧
      (stripMarksWith cat s).toList.all
        (fun c => !(cat c = "Mn" || cat c = "Me")) = true) ∧
    (∀ s : String,
      strip_marks (strip_marks s) = strip_marks s ∧
      (strip_marks s).toList.all
        (fun c => !(unicodeCategory c = "Mn" || unicodeCategory c = "Me")) =
        true) := by
  have key : ∀ (cat : Char → String) (s : String),
      stripMarksWith cat (stripMarksWith cat s) = stripMarksWith cat s ∧
      (stripMarksWith cat s).toList.all
        (fun c => !(cat c = "Mn" || cat c = "Me")) = true := by
    intro cat s
    constructor
    · show String.mk (((s.toList.filter _).filter _)) = _
      rw [List.filter_filter]
      simp [stripMarksWith]
    · rw [List.all_eq_true]
      intro c hc
      have hmem : c ∈ s.toList.filter
          (fun c => !(cat c = "Mn" || cat c = "Me")) := hc
      exact (List.mem_filter.mp hmem).2
  exact ⟨key, fun s => key unicodeCategory s⟩
